import Mathlib

/-!
Verification of the matisse_controller stabilization core.

The development shallowly embeds the three source files:

* `src/matisse/lock_correction_thread.py` — the lock-acquisition supervisor
  (`LockCorrectionThread.run`), embedded as a fuel-indexed transition
  function `runFrom` over per-cycle instrument observations, together with
  the single-cycle body `loopCycle` and the correction sequence
  `attempt_piezo_corrections`.
* `src/matisse/matisse.py` — the `Matisse.query` command/query core,
  embedded as `queryAux` over an abstract instrument response function.
* `src/gui/control_application.py` — the two caller-facing handlers the
  claims mention, `set_wavelength_dialog` and `toggle_fast_piezo_control`.

Machine-level details that the Python runtime supplies (threads, the
1-second sleep cadence, the one-shot timer) are made explicit: cycle `i`
of the polling loop happens `i` seconds after `timer.start()`, and the
timer deposits its `"stop"` message once real time reaches the timeout.
-/

set_option autoImplicit false

/-! ### Python string primitives

`Matisse.query` uses `str.strip`, `str.startswith` and `str.split` on the
instrument response.  These are modelled structurally on the character
list of the string so that every use reduces by `rfl`/`decide`. -/

/-- Python `str.strip()`: drop whitespace from both ends. -/
def pyStrip (s : String) : String :=
  String.mk (((s.data.dropWhile Char.isWhitespace).reverse.dropWhile Char.isWhitespace).reverse)

/-- Python `str.startswith(pre)`. -/
def pyStartsWith (s pre : String) : Bool :=
  List.isPrefixOf pre.data s.data

/-- Helper for `pySplit`: accumulates the current (reversed) token. -/
def pySplitAux : List Char → List Char → List String
  | [], acc => if acc = [] then [] else [String.mk acc.reverse]
  | c :: cs, acc =>
    if c.isWhitespace then
      if acc = [] then pySplitAux cs []
      else String.mk acc.reverse :: pySplitAux cs []
    else pySplitAux cs (c :: acc)

/-- Python `str.split()` with no argument: split on whitespace runs,
discarding empty tokens. -/
def pySplit (s : String) : List String :=
  pySplitAux s.data []

/-! ### `Matisse.query` (src/matisse/matisse.py lines 17-32)

The instrument link is abstracted as a response function
`instr : String → String`.  A call returns the list of commands actually
sent over the link (in order) together with either a result or a raised
Python error.  The numeric branch `float(result.split()[1])` is modelled
by keeping the token handed to `float` symbolic (`QRes.numTok`); a missing
token models the `IndexError` Python would raise. -/

/-- Result of a successful `Matisse.query` call: either the (stripped)
response string, or the token that Python would pass to `float` when
`numeric_result=True`. -/
inductive QRes
  | str (s : String)
  | numTok (t : String)
  deriving DecidableEq

/-- Whether a query outcome is a successfully parsed numeric value. -/
def isNumRes : Except String QRes → Bool
  | Except.ok (QRes.numTok _) => true
  | _ => false

/-- `Matisse.query(command, numeric_result, raise_on_error)`.  The fuel
bounds the recursion depth of the `self.query('ERROR:CODE?')` follow-up
call (Python would recurse; exhausted fuel models a non-terminating
recursion and never occurs in the theorems below).  Returns the trace of
commands sent and the result. -/
def queryAux (instr : String → String) : ℕ → String → Bool → Bool → List String × Except String QRes
  | 0, _, _, _ => ([], Except.error "recursion depth exhausted")
  | fuel+1, command, numeric, raiseOn =>
    let result := pyStrip (instr command)
    if pyStartsWith result "!ERROR" then
      if raiseOn then
        let sub := queryAux instr fuel "ERROR:CODE?" false true
        match sub.2 with
        | Except.ok (QRes.str s) =>
          (command :: sub.1,
            Except.error ("Error executing Matisse command \x27" ++ command ++ "\x27 " ++ s))
        | Except.ok (QRes.numTok t) =>
          (command :: sub.1,
            Except.error ("Error executing Matisse command \x27" ++ command ++ "\x27 " ++ t))
        | Except.error e => (command :: sub.1, Except.error e)
      else ([command], Except.ok (QRes.str result))
    else if numeric then
      match (pySplit result).get? 1 with
      | some t => ([command], Except.ok (QRes.numTok t))
      | none => ([command], Except.error "IndexError: list index out of range")
    else ([command], Except.ok (QRes.str result))

/-! ### `LockCorrectionThread` (src/matisse/lock_correction_thread.py)

Observable events of one supervisor run.  `enterLoops`/`exitLoops` are the
`ControlLoopsOn` context manager's `__enter__`/`__exit__`.
Modelled from the spec: `control_loops_on.py` is not part of the visible
source; §4.2 specifies a guarded-acquisition helper whose guard runs on
every exit path, which is exactly the semantics of the Python `with`
statement wrapping the loop.  `refCellPos` is `matisse.set_refcell_pos`,
modelled from the spec (§4.4) as a single dispatched position command. -/
inductive Ev
  | enterLoops
  | exitLoops
  | queryLocked
  | queryLimit
  | pzEtalonBaseline (pos : ℚ)
  | slowPiezoNow (pos : ℚ)
  | refCellPos (pos : ℚ)
  deriving DecidableEq

/-- `LockCorrectionThread.PIEZO_ETALON_CORRECTION_POS = 0`. -/
def PIEZO_ETALON_CORRECTION_POS : ℚ := 0

/-- `LockCorrectionThread.SLOW_PIEZO_CORRECTION_POS = 0.35`. -/
def SLOW_PIEZO_CORRECTION_POS : ℚ := 7/20

/-- `LockCorrectionThread.REFCELL_CORRECTION_POS = 0.35`. -/
def REFCELL_CORRECTION_POS : ℚ := 7/20

/-- `LockCorrectionThread.attempt_piezo_corrections` (lines 51-54): the
three repositioning commands, in source order.  Each is dispatched over
the instrument link with `raise_on_error=True` (the first two are direct
`matisse.query` calls; `set_refcell_pos` is modelled from the spec §4.4
as one dispatched command over the same link), so each can raise.
`r1`, `r2`, `r3` are the instrument's dispositions for the three
commands: a raising command has still been sent, but it aborts the
sequence — the commands after it are not issued and the error propagates
(`some e`). -/
def attempt_piezo_corrections (r1 r2 r3 : Except String Unit) : List Ev × Option String :=
  match r1 with
  | Except.error e => ([Ev.pzEtalonBaseline PIEZO_ETALON_CORRECTION_POS], some e)
  | Except.ok _ =>
    match r2 with
    | Except.error e =>
      ([Ev.pzEtalonBaseline PIEZO_ETALON_CORRECTION_POS,
        Ev.slowPiezoNow SLOW_PIEZO_CORRECTION_POS], some e)
    | Except.ok _ =>
      match r3 with
      | Except.error e =>
        ([Ev.pzEtalonBaseline PIEZO_ETALON_CORRECTION_POS,
          Ev.slowPiezoNow SLOW_PIEZO_CORRECTION_POS,
          Ev.refCellPos REFCELL_CORRECTION_POS], some e)
      | Except.ok _ =>
        ([Ev.pzEtalonBaseline PIEZO_ETALON_CORRECTION_POS,
          Ev.slowPiezoNow SLOW_PIEZO_CORRECTION_POS,
          Ev.refCellPos REFCELL_CORRECTION_POS], none)

/-- How a supervisor run ends.  `stopped` is the `else: timer.cancel();
break` branch (a message was in the queue — the spec's `TimedOut`);
`limitBeforeLock` is the limit-while-unlocked `break`; `raised e` is an
instrument-link error propagating out of the loop; `stillRunning` means
the fuel ran out with the loop still live (the code has no further exit:
in particular there is no break upon achieving a lock). -/
inductive Outcome
  | stopped
  | limitBeforeLock
  | stillRunning
  | raised (e : String)
  deriving DecidableEq

/-- Result of one iteration of the `while True` body: either continue
(after `time.sleep(1)`) or break.  `cancel` records whether
`timer.cancel()` was called during the iteration; `evs` are the
instrument interactions of the iteration, in order. -/
inductive CycleRes
  | cont (evs : List Ev) (cancel : Bool)
  | brk (o : Outcome) (evs : List Ev) (cancel : Bool)
  deriving DecidableEq

/-- The instrument interactions of one loop iteration, whether it
continued or broke. -/
def cycleEvents : CycleRes → List Ev
  | CycleRes.cont evs _ => evs
  | CycleRes.brk _ evs _ => evs

/-- One iteration of the `while True` loop in `LockCorrectionThread.run`
(lines 31-49).  `q` is the message queue contents at the
`self.messages.qsize() == 0` check; `locked` and `limit` are the results
the instrument would give for `fast_piezo_locked()` and
`is_any_limit_reached()`, and `c1`, `c2`, `c3` its dispositions for the
three correction commands should they be attempted (`Except.error`
models a raised instrument-link error; it ends the iteration — and the
run — at that point, with no further action).  A correction command that
raises does so after being sent, so it still appears in the events. -/
def loopCycle (q : List String) (locked limit : Except String Bool)
    (c1 c2 c3 : Except String Unit) : CycleRes :=
  if q.length = 0 then
    match locked with
    | Except.error e => CycleRes.brk (Outcome.raised e) [Ev.queryLocked] false
    | Except.ok true =>
      -- timer.cancel() happens before the limit query (lines 34-38)
      match limit with
      | Except.error e => CycleRes.brk (Outcome.raised e) [Ev.queryLocked, Ev.queryLimit] true
      | Except.ok true =>
        match attempt_piezo_corrections c1 c2 c3 with
        | (evs, none) => CycleRes.cont ([Ev.queryLocked, Ev.queryLimit] ++ evs) true
        | (evs, some e) =>
          CycleRes.brk (Outcome.raised e) ([Ev.queryLocked, Ev.queryLimit] ++ evs) true
      | Except.ok false => CycleRes.cont [Ev.queryLocked, Ev.queryLimit] true
    | Except.ok false =>
      match limit with
      | Except.error e => CycleRes.brk (Outcome.raised e) [Ev.queryLocked, Ev.queryLimit] false
      | Except.ok true => CycleRes.brk Outcome.limitBeforeLock [Ev.queryLocked, Ev.queryLimit] true
      | Except.ok false => CycleRes.cont [Ev.queryLocked, Ev.queryLimit] false
  else CycleRes.brk Outcome.stopped [] true

deriving instance DecidableEq for Except

/-- Per-cycle environment: the externally enqueued messages visible at the
cycle's queue check (the timer's own `"stop"` message is derived from the
timeout, see `runFrom`), the two instrument status answers, and the
instrument's dispositions for the three correction commands should this
cycle attempt them. -/
structure CycleEnv where
  msgs : List String
  locked : Except String Bool
  limit : Except String Bool
  corrPzEtalon : Except String Unit
  corrSlowPiezo : Except String Unit
  corrRefCell : Except String Unit
  deriving DecidableEq

/-- Final state of a supervisor run. `endCycle` is the index of the cycle
at which the loop broke (equivalently, seconds elapsed since
`timer.start()`, given the 1-second cadence); for `stillRunning` it is
the next unexecuted cycle.  `timerCancelled` records whether
`timer.cancel()` was ever called. -/
structure RunResult where
  outcome : Outcome
  endCycle : ℕ
  events : List Ev
  timerCancelled : Bool
  deriving DecidableEq

/-- The `while True` loop of `LockCorrectionThread.run`, starting at cycle
`i` with the one-shot timer for timeout `T` still armed iff `armed`.
Cycle `i` runs at time `i` seconds; the timer's `"stop"` message is in
the queue at that moment iff the timer is still armed and `T ≤ i` (the
timer can only have fired while armed, since between cycles nothing else
touches it, and a cancellation always happens strictly before time `T` —
otherwise the earlier queue check would already have broken the loop).
`fuel` bounds how many iterations we unfold. -/
def runFrom (T : ℚ) (env : ℕ → CycleEnv) : ℕ → ℕ → Bool → List Ev → RunResult
  | 0, i, armed, acc => ⟨Outcome.stillRunning, i, acc, !armed⟩
  | fuel+1, i, armed, acc =>
    match loopCycle ((env i).msgs ++ (if armed && decide (T ≤ (i : ℚ)) then ["stop"] else []))
        (env i).locked (env i).limit (env i).corrPzEtalon (env i).corrSlowPiezo
        (env i).corrRefCell with
    | CycleRes.cont evs cancel => runFrom T env fuel (i+1) (armed && !cancel) (acc ++ evs)
    | CycleRes.brk o evs cancel => ⟨o, i, acc ++ evs, !armed || cancel⟩

/-- `LockCorrectionThread.run` (lines 27-49): arm the timer, enter
`ControlLoopsOn`, run the polling loop.  The Python `with` statement
guarantees the `__exit__` guard on every path out of the block, normal or
exceptional, so the event trace is bracketed by `enterLoops`/`exitLoops`
unconditionally. -/
def runThread (T : ℚ) (env : ℕ → CycleEnv) (fuel : ℕ) : RunResult :=
  let r := runFrom T env fuel 0 true []
  ⟨r.outcome, r.endCycle, (Ev.enterLoops :: r.events) ++ [Ev.exitLoops], r.timerCancelled⟩

/-! ### GUI handlers (src/gui/control_application.py) -/

/-- `ControlApplication.CONFIRM_WAVELENGTH_CHANGE_THRESHOLD = 10`. -/
def CONFIRM_WAVELENGTH_CHANGE_THRESHOLD : ℚ := 10

/-- Observable result of `set_wavelength_dialog`: whether the "Large
Wavelength Change" confirmation was shown, and the wavelength handed to
`matisse.set_wavelength` if the background thread was started. -/
structure WavelengthDialogRes where
  warned : Bool
  dispatched : Option ℚ
  deriving DecidableEq

/-- `ControlApplication.set_wavelength_dialog` (lines 194-215).
`targetWavelength` is `matisse.target_wavelength` (`none` when no target
is known, in which case the code falls back to the wavemeter reading
`wavemeterWavelength`); `dialogInput` is the `QInputDialog` result
(`none` when the user cancelled); `confirmYes` is the answer to the
warning box when it is shown. -/
def set_wavelength_dialog (targetWavelength : Option ℚ) (wavemeterWavelength : ℚ)
    (dialogInput : Option ℚ) (confirmYes : Bool) : WavelengthDialogRes :=
  let current := targetWavelength.getD wavemeterWavelength
  match dialogInput with
  | none => ⟨false, none⟩
  | some target =>
    if |current - target| ≥ CONFIRM_WAVELENGTH_CHANGE_THRESHOLD then
      if confirmYes then ⟨true, some target⟩ else ⟨true, none⟩
    else ⟨false, some target⟩

/-- Calls into the instrument layer made by the stabilization menu
handlers.  Modelled from the spec: the Control Loop Registry (§4.1)
exposes one setter per feedback loop; only the ones the visible GUI code
invokes matter here, but `set_fast_piezo_control` is included so that
"which setter was called" is expressible. -/
inductive MatisseCall
  | set_slow_piezo_control (b : Bool)
  | set_thin_etalon_control (b : Bool)
  | set_piezo_etalon_control (b : Bool)
  | set_fast_piezo_control (b : Bool)
  deriving DecidableEq

/-- Observable steps of a GUI slot handler. -/
inductive UiEv
  | printMsg (s : String)
  | setChecked (action : String) (b : Bool)
  | matisseCall (c : MatisseCall)
  deriving DecidableEq

/-- The instrument-layer calls of a handler trace, in order. -/
def matisseCalls (evs : List UiEv) : List MatisseCall :=
  evs.filterMap fun e =>
    match e with
    | UiEv.matisseCall c => some c
    | _ => none

/-- `ControlApplication.toggle_fast_piezo_control` (lines 306-311),
step by step in source order. -/
def toggle_fast_piezo_control (checked : Bool) : List UiEv :=
  [UiEv.printMsg ((if checked then "Locking" else "Unlocking") ++ " fast piezo."),
   UiEv.setChecked "fast_pz_control_action" (!checked),
   UiEv.matisseCall (MatisseCall.set_piezo_etalon_control checked),
   UiEv.setChecked "fast_pz_control_action" checked]

/-! ### Unfolding lemmas for the polling loop -/

/-- Out of fuel: the loop is still live. -/
theorem runFrom_zero (T : ℚ) (env : ℕ → CycleEnv) (i : ℕ) (armed : Bool) (acc : List Ev) :
    runFrom T env 0 i armed acc = ⟨Outcome.stillRunning, i, acc, !armed⟩ := rfl

/-- One unfolding of the loop. -/
theorem runFrom_succ (T : ℚ) (env : ℕ → CycleEnv) (fuel i : ℕ) (armed : Bool) (acc : List Ev) :
    runFrom T env (fuel+1) i armed acc =
      match loopCycle ((env i).msgs ++ (if armed && decide (T ≤ (i : ℚ)) then ["stop"] else []))
          (env i).locked (env i).limit (env i).corrPzEtalon (env i).corrSlowPiezo
          (env i).corrRefCell with
      | CycleRes.cont evs cancel => runFrom T env fuel (i+1) (armed && !cancel) (acc ++ evs)
      | CycleRes.brk o evs cancel => ⟨o, i, acc ++ evs, !armed || cancel⟩ := rfl

/-- A quiet cycle — empty queue, timer not yet due, unlocked, no limit —
just polls and re-loops with the timer state unchanged. -/
theorem step_quiet (T : ℚ) (env : ℕ → CycleEnv) (fuel i : ℕ) (armed : Bool) (acc : List Ev)
    (hm : (env i).msgs = []) (ht : (armed && decide (T ≤ (i : ℚ))) = false)
    (hl : (env i).locked = Except.ok false) (hlim : (env i).limit = Except.ok false) :
    runFrom T env (fuel+1) i armed acc =
      runFrom T env fuel (i+1) armed (acc ++ [Ev.queryLocked, Ev.queryLimit]) := by
  rw [runFrom_succ, hm, ht, hl, hlim]
  simp [loopCycle]

/-- A locked cycle with no limit: the timer is cancelled and the loop
re-polls with no correction commands. -/
theorem step_locked (T : ℚ) (env : ℕ → CycleEnv) (fuel i : ℕ) (armed : Bool) (acc : List Ev)
    (hm : (env i).msgs = []) (ht : (armed && decide (T ≤ (i : ℚ))) = false)
    (hl : (env i).locked = Except.ok true) (hlim : (env i).limit = Except.ok false) :
    runFrom T env (fuel+1) i armed acc =
      runFrom T env fuel (i+1) false (acc ++ [Ev.queryLocked, Ev.queryLimit]) := by
  rw [runFrom_succ, hm, ht, hl, hlim]
  simp [loopCycle]

/-- A cycle whose queue holds a message breaks immediately. -/
theorem step_msg (T : ℚ) (env : ℕ → CycleEnv) (fuel i : ℕ) (armed : Bool) (acc : List Ev)
    (hq : (env i).msgs ++ (if armed && decide (T ≤ (i : ℚ)) then ["stop"] else []) ≠ []) :
    runFrom T env (fuel+1) i armed acc = ⟨Outcome.stopped, i, acc, true⟩ := by
  rw [runFrom_succ]
  simp only [loopCycle]
  rw [if_neg (by simpa using hq)]
  simp

/-- Once the timer has been cancelled while the laser stays locked with no
limit reached, the loop polls forever: every remaining cycle issues the
two status queries and nothing else, and never breaks. -/
theorem runFrom_locked_tail (T : ℚ) (env : ℕ → CycleEnv)
    (hE : ∀ j, (env j).msgs = [] ∧ (env j).locked = Except.ok true ∧
      (env j).limit = Except.ok false) :
    ∀ fuel k acc, runFrom T env fuel k false acc =
      ⟨Outcome.stillRunning, k + fuel,
        acc ++ (List.replicate fuel [Ev.queryLocked, Ev.queryLimit]).flatten, true⟩ := by
  intro fuel
  induction fuel with
  | zero => intro k acc; simp [runFrom_zero]
  | succ f ih =>
    intro k acc
    rw [step_locked T env f k false acc (hE k).1 rfl (hE k).2.1 (hE k).2.2]
    rw [ih (k+1) (acc ++ [Ev.queryLocked, Ev.queryLimit])]
    simp [List.replicate_succ]
    omega

/-- A limit reached at cycle `i`, strictly before any lock and before any
queued message, breaks the loop at cycle `i` with outcome
`limitBeforeLock` and a cancelled timer. -/
theorem runFrom_limit_break (T : ℚ) (env : ℕ → CycleEnv) (i : ℕ)
    (hq : ∀ j, j ≤ i → (env j).msgs = [] ∧ (j : ℚ) < T)
    (hlock : ∀ j, j ≤ i → (env j).locked = Except.ok false)
    (hlim : ∀ j, j < i → (env j).limit = Except.ok false)
    (hlimi : (env i).limit = Except.ok true) :
    ∀ fuel k acc, k ≤ i → i - k < fuel →
      (runFrom T env fuel k true acc).outcome = Outcome.limitBeforeLock ∧
      (runFrom T env fuel k true acc).endCycle = i ∧
      (runFrom T env fuel k true acc).timerCancelled = true := by
  intro fuel
  induction fuel with
  | zero => intro k acc hk hf; exact absurd hf (Nat.not_lt_zero _)
  | succ f ih =>
    intro k acc hk hf
    have htk : (true && decide (T ≤ (k : ℚ))) = false := by
      simp [not_le.mpr (hq k hk).2]
    rcases Nat.lt_or_ge k i with hki | hki
    · rw [step_quiet T env f k true acc (hq k hk).1 htk (hlock k hk) (hlim k hki)]
      exact ih (k+1) _ (by omega) (by omega)
    · have hk_eq : k = i := le_antisymm hk hki
      subst hk_eq
      rw [runFrom_succ, (hq k le_rfl).1, htk, hlock k le_rfl, hlimi]
      simp [loopCycle]

/-- If the instrument never reports a lock and never reports a limit and
nothing external is enqueued, the loop breaks, with outcome `stopped`, at
exactly cycle `⌈T⌉₊` — the first integer-second check at which the
one-shot timer for timeout `T` has fired. -/
theorem runFrom_timeout (T : ℚ) (env : ℕ → CycleEnv)
    (hE : ∀ j, (env j).msgs = [] ∧ (env j).locked = Except.ok false ∧
      (env j).limit = Except.ok false) :
    ∀ fuel k acc, k ≤ ⌈T⌉₊ → ⌈T⌉₊ - k < fuel →
      (runFrom T env fuel k true acc).outcome = Outcome.stopped ∧
      (runFrom T env fuel k true acc).endCycle = ⌈T⌉₊ := by
  intro fuel
  induction fuel with
  | zero => intro k acc hk hf; exact absurd hf (Nat.not_lt_zero _)
  | succ f ih =>
    intro k acc hk hf
    rcases Nat.lt_or_ge k ⌈T⌉₊ with hki | hki
    · have hnt : ¬ T ≤ (k : ℚ) := fun h => absurd (Nat.ceil_le.mpr h) (by omega)
      have htk : (true && decide (T ≤ (k : ℚ))) = false := by simp [hnt]
      rw [step_quiet T env f k true acc (hE k).1 htk (hE k).2.1 (hE k).2.2]
      exact ih (k+1) _ (by omega) (by omega)
    · have hk_eq : k = ⌈T⌉₊ := le_antisymm hk hki
      subst hk_eq
      rw [step_msg T env f ⌈T⌉₊ true acc (by simp [(hE ⌈T⌉₊).1, Nat.le_ceil T])]
      exact ⟨rfl, rfl⟩

/-! ### Claims about the Lock Acquisition Supervisor -/

/-- C1 (counterexample): with the instrument reporting the fast piezo
locked from cycle 0 onward, no limit ever reached, and nothing enqueued,
the polling loop does not end in a `Locked` terminal state as the claim
says: the code has no break on a successful lock, so after 5 polling
cycles the loop is still live (`stillRunning`), having cancelled the
timer at cycle 0 and then issued four further rounds of status queries. -/
theorem locked_run_never_ends_cex :
    runFrom 30 (fun _ => ⟨[], Except.ok true, Except.ok false,
      Except.ok (), Except.ok (), Except.ok ()⟩) 5 0 true [] =
      ⟨Outcome.stillRunning, 5,
        [Ev.queryLocked, Ev.queryLimit, Ev.queryLocked, Ev.queryLimit, Ev.queryLocked,
         Ev.queryLimit, Ev.queryLocked, Ev.queryLimit, Ev.queryLocked, Ev.queryLimit], true⟩ := rfl

/-- C1 (amended): in every run in which the instrument reports the fast
piezo locked and no actuator limit is reached (and nothing external is
enqueued, timeout positive), the supervisor cancels the timeout timer at
the first cycle and issues no correction commands — but it does not
terminate: for every number of unfolded cycles the loop is still polling,
its trace being exactly the repeated pair of status queries. -/
theorem locked_run_monitors_without_correction (T : ℚ) (env : ℕ → CycleEnv) (hT : 0 < T)
    (hE : ∀ j, (env j).msgs = [] ∧ (env j).locked = Except.ok true ∧
      (env j).limit = Except.ok false) (fuel : ℕ) :
    runFrom T env (fuel+1) 0 true [] =
      ⟨Outcome.stillRunning, fuel+1,
        (List.replicate (fuel+1) [Ev.queryLocked, Ev.queryLimit]).flatten, true⟩ := by
  have h0 : ¬ T ≤ ((0:ℕ) : ℚ) := by
    intro h
    rw [Nat.cast_zero] at h
    exact absurd hT (not_lt.mpr h)
  have ht : (true && decide (T ≤ ((0:ℕ) : ℚ))) = false := by
    simp only [Bool.true_and, decide_eq_false_iff_not]
    exact h0
  rw [step_locked T env fuel 0 true [] (hE 0).1 ht (hE 0).2.1 (hE 0).2.2]
  rw [runFrom_locked_tail T env hE fuel 1]
  simp [List.replicate_succ]
  omega

/-- Witness for `locked_run_monitors_without_correction` at timeout 30,
three polling cycles. -/
theorem locked_run_monitors_without_correction_witness :
    (0:ℚ) < 30 ∧
    runFrom 30 (fun _ => ⟨[], Except.ok true, Except.ok false,
      Except.ok (), Except.ok (), Except.ok ()⟩) 3 0 true [] =
      ⟨Outcome.stillRunning, 3,
        (List.replicate 3 [Ev.queryLocked, Ev.queryLimit]).flatten, true⟩ :=
  ⟨by norm_num,
    locked_run_monitors_without_correction 30 _ (by norm_num) (fun _ => ⟨rfl, rfl, rfl⟩) 2⟩

/-- C2 (counterexample): with lock and limit both reported at every cycle
(and nothing enqueued), two polling cycles issue the three-command
correction sequence twice — not "exactly once" per run — and the run has
no `Locked` terminal outcome: the loop is still live afterwards. -/
theorem corrections_repeat_cex :
    runFrom 30 (fun _ => ⟨[], Except.ok true, Except.ok true,
      Except.ok (), Except.ok (), Except.ok ()⟩) 2 0 true [] =
      ⟨Outcome.stillRunning, 2,
        [Ev.queryLocked, Ev.queryLimit, Ev.pzEtalonBaseline PIEZO_ETALON_CORRECTION_POS,
         Ev.slowPiezoNow SLOW_PIEZO_CORRECTION_POS, Ev.refCellPos REFCELL_CORRECTION_POS,
         Ev.queryLocked, Ev.queryLimit, Ev.pzEtalonBaseline PIEZO_ETALON_CORRECTION_POS,
         Ev.slowPiezoNow SLOW_PIEZO_CORRECTION_POS, Ev.refCellPos REFCELL_CORRECTION_POS],
        true⟩ := rfl

/-- C2 (amended): in each polling cycle in which no stop message is
queued and the instrument reports both a lock and a reached limit, the
Automatic Correction commands are attempted once, in the fixed order
piezo-etalon baseline (0), slow-piezo position (0.35), reference-cell
position (0.35), after the two status queries.  When all three commands
succeed the full sequence is issued and the loop continues polling (the
timer having been cancelled), so the sequence may be issued again in
later such cycles; each command is sent with `raise_on_error=True`, so a
raising command ends the run mid-sequence — whatever the dispositions,
the cycle's events are an in-order prefix of the two queries followed by
the full three-command sequence, never a reordering or repetition. -/
theorem lock_with_limit_cycle_corrects_once (c1 c2 c3 : Except String Unit) :
    loopCycle [] (Except.ok true) (Except.ok true)
        (Except.ok ()) (Except.ok ()) (Except.ok ()) =
      CycleRes.cont [Ev.queryLocked, Ev.queryLimit,
        Ev.pzEtalonBaseline PIEZO_ETALON_CORRECTION_POS,
        Ev.slowPiezoNow SLOW_PIEZO_CORRECTION_POS,
        Ev.refCellPos REFCELL_CORRECTION_POS] true ∧
    cycleEvents (loopCycle [] (Except.ok true) (Except.ok true) c1 c2 c3) <+:
      [Ev.queryLocked, Ev.queryLimit,
        Ev.pzEtalonBaseline PIEZO_ETALON_CORRECTION_POS,
        Ev.slowPiezoNow SLOW_PIEZO_CORRECTION_POS,
        Ev.refCellPos REFCELL_CORRECTION_POS] := by
  refine ⟨rfl, ?_⟩
  rcases c1 with e1 | u1
  · exact ⟨[Ev.slowPiezoNow SLOW_PIEZO_CORRECTION_POS,
      Ev.refCellPos REFCELL_CORRECTION_POS], rfl⟩
  · rcases c2 with e2 | u2
    · exact ⟨[Ev.refCellPos REFCELL_CORRECTION_POS], rfl⟩
    · rcases c3 with e3 | u3
      · exact ⟨[], rfl⟩
      · exact ⟨[], rfl⟩

/-- C3: in every polling sequence in which an actuator limit is observed
at cycle `i`, strictly before any lock is reported and before the timeout
fires or anything is enqueued, the supervisor cancels the timer and
breaks out of the loop at that same cycle `i` with terminal outcome
`limitBeforeLock` — before the timeout (`i < T`), and never `Locked`. -/
theorem limit_before_lock_terminates (T : ℚ) (env : ℕ → CycleEnv) (i fuel : ℕ)
    (hq : ∀ j, j ≤ i → (env j).msgs = [] ∧ (j : ℚ) < T)
    (hlock : ∀ j, j ≤ i → (env j).locked = Except.ok false)
    (hlim : ∀ j, j < i → (env j).limit = Except.ok false)
    (hlimi : (env i).limit = Except.ok true)
    (hfuel : i < fuel) :
    (runFrom T env fuel 0 true []).outcome = Outcome.limitBeforeLock ∧
    (runFrom T env fuel 0 true []).endCycle = i ∧
    (runFrom T env fuel 0 true []).timerCancelled = true ∧
    ((i : ℚ) < T) := by
  obtain ⟨h1, h2, h3⟩ :=
    runFrom_limit_break T env i hq hlock hlim hlimi fuel 0 [] (Nat.zero_le _) (by omega)
  exact ⟨h1, h2, h3, (hq i le_rfl).2⟩

/-- Witness for `limit_before_lock_terminates`: timeout 30, limit first
reported at cycle 2, no lock ever. -/
theorem limit_before_lock_terminates_witness :
    ((fun j => (⟨[], Except.ok false, Except.ok (decide (j = 2)),
      Except.ok (), Except.ok (), Except.ok ()⟩ : CycleEnv)) 2).limit =
      Except.ok true ∧
    (2 : ℕ) < 4 ∧
    (runFrom 30 (fun j => ⟨[], Except.ok false, Except.ok (decide (j = 2)),
      Except.ok (), Except.ok (), Except.ok ()⟩) 4 0 true []).outcome =
      Outcome.limitBeforeLock ∧
    (runFrom 30 (fun j => ⟨[], Except.ok false, Except.ok (decide (j = 2)),
      Except.ok (), Except.ok (), Except.ok ()⟩) 4 0 true []).endCycle =
      2 ∧
    (runFrom 30 (fun j => ⟨[], Except.ok false, Except.ok (decide (j = 2)),
      Except.ok (), Except.ok (), Except.ok ()⟩) 4 0 true []).timerCancelled = true ∧
    (((2:ℕ) : ℚ) < 30) :=
  ⟨rfl, by decide,
    limit_before_lock_terminates 30 _ 2 4 (by decide) (fun _ _ => rfl) (by decide) rfl
      (by decide)⟩

/-- C4: at every polling cycle the queue check comes first: whenever the
message channel is non-empty — whatever the message's content, and
whatever the instrument would have answered — the cycle cancels the timer
and breaks with outcome `stopped`, issuing no instrument query at all. -/
theorem stop_message_preempts_cycle (q : List String) (locked limit : Except String Bool)
    (c1 c2 c3 : Except String Unit) (hq : q ≠ []) :
    loopCycle q locked limit c1 c2 c3 = CycleRes.brk Outcome.stopped [] true := by
  unfold loopCycle
  rw [if_neg (by simpa using hq)]

/-- Witness for `stop_message_preempts_cycle` with an arbitrary message. -/
theorem stop_message_preempts_cycle_witness :
    (["unrelated-message"] : List String) ≠ [] ∧
    loopCycle ["unrelated-message"] (Except.ok true) (Except.ok true)
      (Except.ok ()) (Except.ok ()) (Except.ok ()) =
      CycleRes.brk Outcome.stopped [] true :=
  ⟨by decide, stop_message_preempts_cycle _ _ _ _ _ _ (by decide)⟩

/-- C5: for every timeout `T ≥ 0`, if the instrument never reports a lock
and never reports a limit (and nothing external is enqueued), the
supervisor breaks with outcome `stopped` at cycle `⌈T⌉₊` — the first
1-second poll at which the one-shot timer has deposited its stop message
— which is within `T + 1` seconds of the start. -/
theorem timeout_reaches_stop (T : ℚ) (env : ℕ → CycleEnv) (fuel : ℕ) (hT : 0 ≤ T)
    (hE : ∀ j, (env j).msgs = [] ∧ (env j).locked = Except.ok false ∧
      (env j).limit = Except.ok false)
    (hfuel : ⌈T⌉₊ < fuel) :
    (runFrom T env fuel 0 true []).outcome = Outcome.stopped ∧
    (runFrom T env fuel 0 true []).endCycle = ⌈T⌉₊ ∧
    ((⌈T⌉₊ : ℚ) ≤ T + 1) := by
  obtain ⟨h1, h2⟩ := runFrom_timeout T env hE fuel 0 [] (Nat.zero_le _) (by omega)
  exact ⟨h1, h2, (Nat.ceil_lt_add_one hT).le⟩

/-- Witness for `timeout_reaches_stop` at timeout 3 seconds. -/
theorem timeout_reaches_stop_witness :
    (0:ℚ) ≤ 3 ∧ ⌈(3:ℚ)⌉₊ < 5 ∧
    (runFrom 3 (fun _ => ⟨[], Except.ok false, Except.ok false,
      Except.ok (), Except.ok (), Except.ok ()⟩) 5 0 true []).outcome =
      Outcome.stopped ∧
    (runFrom 3 (fun _ => ⟨[], Except.ok false, Except.ok false,
      Except.ok (), Except.ok (), Except.ok ()⟩) 5 0 true []).endCycle =
      ⌈(3:ℚ)⌉₊ ∧
    ((⌈(3:ℚ)⌉₊ : ℚ) ≤ 3 + 1) :=
  ⟨by norm_num, by simp [Nat.ceil_ofNat],
    timeout_reaches_stop 3 _ 5 (by norm_num) (fun _ => ⟨rfl, rfl, rfl⟩)
      (by simp [Nat.ceil_ofNat])⟩

/-! ### Claims about `Matisse.query` and the GUI layer -/

/-- C6: for every command whose (stripped) response begins with the
`!ERROR` sentinel, when `raise_on_error` is enabled `query` sends exactly
one follow-up command, `"ERROR:CODE?"`, and fails with a `RuntimeError`
whose message embeds the command and the error-code response; and for
such a response the result is never a parsed numeric value — with either
`raise_on_error` setting — even when `numeric_result` was requested. -/
theorem error_sentinel_raises_with_code (instr : String → String) (command : String)
    (numeric : Bool) (fuel : ℕ)
    (herr : pyStartsWith (pyStrip (instr command)) "!ERROR" = true)
    (hcode : pyStartsWith (pyStrip (instr "ERROR:CODE?")) "!ERROR" = false)
    (hfuel : 2 ≤ fuel) :
    queryAux instr fuel command numeric true =
      ([command, "ERROR:CODE?"],
        Except.error ("Error executing Matisse command \x27" ++ command ++ "\x27 " ++
          pyStrip (instr "ERROR:CODE?"))) ∧
    isNumRes (queryAux instr fuel command numeric true).2 = false ∧
    isNumRes (queryAux instr fuel command numeric false).2 = false := by
  obtain ⟨f, rfl⟩ : ∃ f, fuel = f + 1 + 1 := ⟨fuel - 2, by omega⟩
  refine ⟨?_, ?_, ?_⟩
  · simp [queryAux, herr, hcode]
  · simp [queryAux, herr, hcode, isNumRes]
  · simp [queryAux, herr, isNumRes]

/-- Witness for `error_sentinel_raises_with_code`: a command answered by
the sentinel, with the follow-up answered by code `E07`. -/
theorem error_sentinel_raises_with_code_witness :
    pyStartsWith (pyStrip ((fun c => if c = "ERROR:CODE?" then "E07 ok" else "!ERROR 5")
      "STATUS")) "!ERROR" = true ∧
    pyStartsWith (pyStrip ((fun c => if c = "ERROR:CODE?" then "E07 ok" else "!ERROR 5")
      "ERROR:CODE?")) "!ERROR" = false ∧
    (2:ℕ) ≤ 2 ∧
    (queryAux (fun c => if c = "ERROR:CODE?" then "E07 ok" else "!ERROR 5") 2 "STATUS" true true =
      (["STATUS", "ERROR:CODE?"],
        Except.error ("Error executing Matisse command \x27" ++ "STATUS" ++ "\x27 " ++
          pyStrip ((fun c => if c = "ERROR:CODE?" then "E07 ok" else "!ERROR 5")
            "ERROR:CODE?"))) ∧
      isNumRes (queryAux (fun c => if c = "ERROR:CODE?" then "E07 ok" else "!ERROR 5")
        2 "STATUS" true true).2 = false ∧
      isNumRes (queryAux (fun c => if c = "ERROR:CODE?" then "E07 ok" else "!ERROR 5")
        2 "STATUS" true false).2 = false) :=
  ⟨rfl, rfl, by decide,
    error_sentinel_raises_with_code (fun c => if c = "ERROR:CODE?" then "E07 ok" else "!ERROR 5")
      "STATUS" true 2 rfl rfl (by decide)⟩

/-- C9 (counterexample): the claim says the raw error response string is
returned unchanged, but `query` strips the response before the sentinel
check and returns the stripped string: for the raw response
`"!ERROR 123 "` (trailing blank) with `raise_on_error` disabled the
returned string is `"!ERROR 123"`, which differs from the raw response. -/
theorem error_response_is_stripped_cex :
    queryAux (fun _ => "!ERROR 123 ") 1 "CMD1" false false =
      (["CMD1"], Except.ok (QRes.str "!ERROR 123")) ∧
    ("!ERROR 123" : String) ≠ "!ERROR 123 " :=
  ⟨rfl, by decide⟩

/-- C9 (amended): for every command, when `raise_on_error` is disabled
and the (stripped) response begins with the error sentinel, `query`
returns the whitespace-stripped response string with no further
modification: it neither raises, nor issues the `"ERROR:CODE?"`
follow-up (the trace is the command alone), nor applies numeric
conversion even when a numeric result was requested. -/
theorem no_raise_returns_stripped_error (instr : String → String) (command : String)
    (numeric : Bool) (fuel : ℕ)
    (herr : pyStartsWith (pyStrip (instr command)) "!ERROR" = true) :
    queryAux instr (fuel+1) command numeric false =
      ([command], Except.ok (QRes.str (pyStrip (instr command)))) := by
  simp [queryAux, herr]

/-- Witness for `no_raise_returns_stripped_error`. -/
theorem no_raise_returns_stripped_error_witness :
    pyStartsWith (pyStrip ((fun _ => "!ERROR 42") "SPZT:NOW?")) "!ERROR" = true ∧
    queryAux (fun _ => "!ERROR 42") 1 "SPZT:NOW?" true false =
      (["SPZT:NOW?"], Except.ok (QRes.str (pyStrip ((fun _ => "!ERROR 42") "SPZT:NOW?")))) :=
  ⟨rfl, no_raise_returns_stripped_error (fun _ => "!ERROR 42") "SPZT:NOW?" true 0 rfl⟩

/-- C7: for every wavelength-set dialog interaction in which the user
enters a target, the "Large Wavelength Change" confirmation is shown
exactly when the absolute difference between the current wavelength
(the known target, else the wavemeter reading) and the requested one
meets or exceeds the 10 nm threshold; and `set_wavelength` is dispatched
exactly unless that threshold was met and the user declined — so a 12 nm
change requires confirmation and a 9 nm change does not. -/
theorem wavelength_confirmation_threshold (targetWavelength : Option ℚ)
    (wavemeterWavelength target : ℚ) (confirmYes : Bool) :
    (set_wavelength_dialog targetWavelength wavemeterWavelength (some target)
        confirmYes).warned =
      decide (|targetWavelength.getD wavemeterWavelength - target| ≥
        CONFIRM_WAVELENGTH_CHANGE_THRESHOLD) ∧
    (set_wavelength_dialog targetWavelength wavemeterWavelength (some target)
        confirmYes).dispatched =
      (if |targetWavelength.getD wavemeterWavelength - target| ≥
            CONFIRM_WAVELENGTH_CHANGE_THRESHOLD ∧ confirmYes = false
        then none else some target) := by
  by_cases h : |targetWavelength.getD wavemeterWavelength - target| ≥
      CONFIRM_WAVELENGTH_CHANGE_THRESHOLD
  · cases confirmYes <;> simp [set_wavelength_dialog, h]
  · cases confirmYes <;> simp [set_wavelength_dialog, h]

/-- The last element of a list with `[a]` appended is `a`. -/
theorem getLast_of_append_single {α : Type _} (l : List α) (a : α) :
    (l ++ [a]).getLast? = some a := by
  induction l with
  | nil => rfl
  | cons y ys ih =>
    rw [List.cons_append]
    cases h : ys ++ [a] with
    | nil => exact absurd h (by simp)
    | cons z zs =>
      rw [List.getLast?_cons_cons, ← h]
      exact ih

/-- C8: every supervisor run is bracketed by the Scoped Control-Loop
Activation: whatever the timeout, environment and number of cycles —
including runs ending in either terminal state or in a propagating
instrument-link error — the event trace begins with the context
manager's entry and ends with its exit guard.  Moreover an
instrument-link error at any query or command inside a polling cycle is
not locally recovered: whether it occurs at the lock query, at either
limit query, or at any of the three correction commands (which then
abort the sequence after the raising command), the cycle breaks with the
error as the run's outcome; the same is shown for a whole run whose
first cycle raises, whose trace still ends with the exit guard. -/
theorem cleanup_runs_on_all_exits (T : ℚ) (env : ℕ → CycleEnv) (fuel : ℕ)
    (limit : Except String Bool) (c1 c2 c3 : Except String Unit) (e : String) :
    (runThread T env fuel).events.head? = some Ev.enterLoops ∧
    (runThread T env fuel).events.getLast? = some Ev.exitLoops ∧
    loopCycle [] (Except.error e) limit c1 c2 c3 =
      CycleRes.brk (Outcome.raised e) [Ev.queryLocked] false ∧
    loopCycle [] (Except.ok true) (Except.error e) c1 c2 c3 =
      CycleRes.brk (Outcome.raised e) [Ev.queryLocked, Ev.queryLimit] true ∧
    loopCycle [] (Except.ok false) (Except.error e) c1 c2 c3 =
      CycleRes.brk (Outcome.raised e) [Ev.queryLocked, Ev.queryLimit] false ∧
    loopCycle [] (Except.ok true) (Except.ok true) (Except.error e) c2 c3 =
      CycleRes.brk (Outcome.raised e) [Ev.queryLocked, Ev.queryLimit,
        Ev.pzEtalonBaseline PIEZO_ETALON_CORRECTION_POS] true ∧
    loopCycle [] (Except.ok true) (Except.ok true) (Except.ok ()) (Except.error e) c3 =
      CycleRes.brk (Outcome.raised e) [Ev.queryLocked, Ev.queryLimit,
        Ev.pzEtalonBaseline PIEZO_ETALON_CORRECTION_POS,
        Ev.slowPiezoNow SLOW_PIEZO_CORRECTION_POS] true ∧
    loopCycle [] (Except.ok true) (Except.ok true) (Except.ok ()) (Except.ok ())
        (Except.error e) =
      CycleRes.brk (Outcome.raised e) [Ev.queryLocked, Ev.queryLimit,
        Ev.pzEtalonBaseline PIEZO_ETALON_CORRECTION_POS,
        Ev.slowPiezoNow SLOW_PIEZO_CORRECTION_POS,
        Ev.refCellPos REFCELL_CORRECTION_POS] true ∧
    (runThread 1 (fun _ => ⟨[], Except.error e, limit, c1, c2, c3⟩) (fuel+1)).outcome =
      Outcome.raised e ∧
    (runThread 1 (fun _ => ⟨[], Except.ok true, Except.ok true,
        Except.error e, c2, c3⟩) (fuel+1)).outcome = Outcome.raised e ∧
    (runThread 1 (fun _ => ⟨[], Except.error e, limit, c1, c2, c3⟩)
        (fuel+1)).events.getLast? = some Ev.exitLoops ∧
    (runThread 1 (fun _ => ⟨[], Except.ok true, Except.ok true,
        Except.error e, c2, c3⟩) (fuel+1)).events.getLast? = some Ev.exitLoops := by
  refine ⟨?_, ?_, rfl, rfl, rfl, rfl, rfl, rfl, ?_, ?_, ?_, ?_⟩
  · simp [runThread]
  · show ((Ev.enterLoops :: (runFrom T env fuel 0 true []).events) ++
        [Ev.exitLoops]).getLast? = some Ev.exitLoops
    exact getLast_of_append_single _ _
  · have : decide ((1:ℚ) ≤ ((0:ℕ) : ℚ)) = false := by norm_num
    simp [runThread, runFrom_succ, this, loopCycle]
  · have : decide ((1:ℚ) ≤ ((0:ℕ) : ℚ)) = false := by norm_num
    simp [runThread, runFrom_succ, this, loopCycle, attempt_piezo_corrections]
  · show ((Ev.enterLoops :: (runFrom 1 (fun _ => ⟨[], Except.error e, limit, c1, c2, c3⟩)
        (fuel+1) 0 true []).events) ++ [Ev.exitLoops]).getLast? = some Ev.exitLoops
    exact getLast_of_append_single _ _
  · show ((Ev.enterLoops :: (runFrom 1 (fun _ => ⟨[], Except.ok true, Except.ok true,
        Except.error e, c2, c3⟩) (fuel+1) 0 true []).events) ++
        [Ev.exitLoops]).getLast? = some Ev.exitLoops
    exact getLast_of_append_single _ _

/-- C10: `toggle_fast_piezo_control(checked)` dispatches exactly one call
to the instrument layer, and it is `set_piezo_etalon_control(checked)` —
not the fast-piezo control setter. -/
theorem toggle_fast_piezo_calls_piezo_etalon (checked : Bool) :
    matisseCalls (toggle_fast_piezo_control checked) =
      [MatisseCall.set_piezo_etalon_control checked] ∧
    matisseCalls (toggle_fast_piezo_control checked) ≠
      [MatisseCall.set_fast_piezo_control checked] := by
  cases checked <;> exact ⟨rfl, by decide⟩
